import Mathlib

/-!
Shallow embedding of the darksoulsiii-practice-tool sources.

The repository holds two generations of the tool:
* practice-tool/src/practice_tool.rs and practice-tool/src/widgets/config.rs
  (the current generation, embedded below at top level), and
* src/lib.rs (the previous generation, embedded in the OldTool namespace).

External collaborators (the imgui substrate, libds3 pointer chains, the
practice_tool_core widget crate, the toml text parser) are modelled as opaque
data or as frame inputs, as the specification prescribes.
-/

/-- Key/chord state as parsed from the configuration. Modelled from the spec:
the KeyState type lives in util.rs, which is absent from the sources; the spec
describes it as a record of key_code, modifiers and previous_pressed with a
rising-edge press detector. Here only its identity as configuration data
matters, so it is plain data. -/
structure KeyState where
  key_code : Nat
  modifiers : Nat
  previous_pressed : Bool
deriving DecidableEq

/-- A single-bit boolean view over a byte-sized memory cell. The cells come
from the external libds3 crate; each is an opaque token here, since no claim
inspects cell internals. -/
structure Bitflag where
  id : Nat
deriving DecidableEq

/-- The table of bitflag pointer chains (libds3 PointerChains) referenced by
the flag lookup table in widgets/config.rs. -/
structure PointerChains where
  all_no_damage : Bitflag
  inf_stamina : Bitflag
  inf_focus : Bitflag
  inf_consumables : Bitflag
  deathcam : Bitflag
  no_death : Bitflag
  one_shot : Bitflag
  evt_draw : Bitflag
  evt_disable : Bitflag
  ai_disable : Bitflag
  rend_chr : Bitflag
  rend_obj : Bitflag
  rend_map : Bitflag
  rend_mesh_hi : Bitflag
  rend_mesh_lo : Bitflag
  all_draw_hit : Bitflag
  ik_foot_ray : Bitflag
  debug_sphere_1 : Bitflag
  debug_sphere_2 : Bitflag
  gravity : Bitflag

/-- FlagSpec from widgets/config.rs: a label plus a getter selecting a bitflag
pointer chain out of the chain table. -/
structure FlagSpec where
  label : String
  getter : PointerChains → Bitflag

/-- FlagSpec constructor mirroring FlagSpec::new in widgets/config.rs. -/
def FlagSpec.new (label : String) (getter : PointerChains → Bitflag) : FlagSpec :=
  { label := label, getter := getter }

/-- The TryFrom String implementation for FlagSpec in widgets/config.rs
(lines 144-172): the fixed table of known flag names, any other name is a
configuration error. -/
def FlagSpec.tryFrom (value : String) : Except String FlagSpec :=
  match value with
  | "all_no_damage" => Except.ok (FlagSpec.new "All no damage" (fun c => c.all_no_damage))
  | "inf_stamina" => Except.ok (FlagSpec.new "Inf Stamina" (fun c => c.inf_stamina))
  | "inf_focus" => Except.ok (FlagSpec.new "Inf Focus" (fun c => c.inf_focus))
  | "inf_consumables" => Except.ok (FlagSpec.new "Inf Consumables" (fun c => c.inf_consumables))
  | "deathcam" => Except.ok (FlagSpec.new "Deathcam" (fun c => c.deathcam))
  | "no_death" => Except.ok (FlagSpec.new "No death" (fun c => c.no_death))
  | "one_shot" => Except.ok (FlagSpec.new "One shot" (fun c => c.one_shot))
  | "evt_draw" => Except.ok (FlagSpec.new "Event draw" (fun c => c.evt_draw))
  | "evt_disable" => Except.ok (FlagSpec.new "Event disable" (fun c => c.evt_disable))
  | "ai_disable" => Except.ok (FlagSpec.new "AI disable" (fun c => c.ai_disable))
  | "rend_chr" => Except.ok (FlagSpec.new "Render characters" (fun c => c.rend_chr))
  | "rend_obj" => Except.ok (FlagSpec.new "Render objects" (fun c => c.rend_obj))
  | "rend_map" => Except.ok (FlagSpec.new "Render map" (fun c => c.rend_map))
  | "rend_mesh_hi" => Except.ok (FlagSpec.new "Collision mesh (hi)" (fun c => c.rend_mesh_hi))
  | "rend_mesh_lo" => Except.ok (FlagSpec.new "Collision mesh (lo)" (fun c => c.rend_mesh_lo))
  | "all_draw_hit" => Except.ok (FlagSpec.new "All draw hit" (fun c => c.all_draw_hit))
  | "ik_foot_ray" => Except.ok (FlagSpec.new "IK foot ray" (fun c => c.ik_foot_ray))
  | "debug_sphere_1" => Except.ok (FlagSpec.new "Debug sphere 1" (fun c => c.debug_sphere_1))
  | "debug_sphere_2" => Except.ok (FlagSpec.new "Debug sphere 2" (fun c => c.debug_sphere_2))
  | "gravity" => Except.ok (FlagSpec.new "Gravity" (fun c => c.gravity))
  | e => Except.error ("\"" ++ e ++ "\" is not a valid flag specifier")

/-- CfgCommand from widgets/config.rs: the declarative command entries after
deserialization. -/
inductive CfgCommand where
  | SavefileManager (hotkey : KeyState)
  | Flag (flag : FlagSpec) (hotkey : KeyState)
  | Position (hotkey : KeyState)
  | CycleSpeed (cycle_values : List Float) (hotkey : KeyState)
  | Souls (amount : Nat) (hotkey : KeyState)
  | Quitout (hotkey : KeyState)

/-- The externally tagged structured data for one command entry, as delivered
by the opaque toml layer before the serde field conversions run. A flag entry
still carries its flag name as a raw string at this stage. -/
inductive RawCommand where
  | savefile_manager (hotkey : KeyState)
  | flag (flag : String) (hotkey : KeyState)
  | position (hotkey : KeyState)
  | speed (cycle_values : List Float) (hotkey : KeyState)
  | souls (amount : Nat) (hotkey : KeyState)
  | quitout (hotkey : KeyState)

/-- Serde deserialization of a single command entry: for a flag entry the
TryFrom String conversion of FlagSpec runs and its error aborts the entry. -/
def RawCommand.deserialize : RawCommand → Except String CfgCommand
  | RawCommand.savefile_manager hk => Except.ok (CfgCommand.SavefileManager hk)
  | RawCommand.flag f hk => (FlagSpec.tryFrom f).map (fun fs => CfgCommand.Flag fs hk)
  | RawCommand.position hk => Except.ok (CfgCommand.Position hk)
  | RawCommand.speed vs hk => Except.ok (CfgCommand.CycleSpeed vs hk)
  | RawCommand.souls a hk => Except.ok (CfgCommand.Souls a hk)
  | RawCommand.quitout hk => Except.ok (CfgCommand.Quitout hk)

/-- Serde deserialization of the command vector: sequential and fail-fast, the
first failing entry aborts the whole vector (and with it the whole Config). -/
def deserializeCommands : List RawCommand → Except String (List CfgCommand)
  | [] => Except.ok []
  | cmd :: rest =>
    match RawCommand.deserialize cmd with
    | Except.error e => Except.error e
    | Except.ok c =>
      match deserializeCommands rest with
      | Except.error e => Except.error e
      | Except.ok cs => Except.ok (c :: cs)

/-- Log level filter (the log crate LevelFilter, external). -/
inductive LevelFilter where
  | Off
  | ErrorLv
  | Warn
  | Info
  | Debug
  | Trace
deriving DecidableEq

/-- LevelFilterSerde from widgets/config.rs, a newtype over LevelFilter. -/
structure LevelFilterSerde where
  level : LevelFilter
deriving DecidableEq

/-- Settings from widgets/config.rs (lines 20-28). -/
structure Settings where
  log_level : LevelFilterSerde
  display : KeyState
  down : KeyState
  up : KeyState
  left : KeyState
  right : KeyState
deriving DecidableEq

/-- Config from widgets/config.rs: settings plus the deserialized command
list. -/
structure Config where
  settings : Settings
  commands : List CfgCommand

/-- Structured configuration data as produced by the opaque toml text parser,
before the serde conversions for the command entries run. -/
structure RawConfig where
  settings : Settings
  commands : List RawCommand

/-- Config::parse from widgets/config.rs (lines 84-87), at the structured
level: deserialize the command vector; any entry error (such as an unknown
flag name) aborts the whole parse and is wrapped in the parse error message. -/
def Config.parse (cfg : RawConfig) : Except String Config :=
  match deserializeCommands cfg.commands with
  | Except.ok cmds => Except.ok { settings := cfg.settings, commands := cmds }
  | Except.error e => Except.error ("TOML configuration parse error: " ++ e)

/-- Default for Config from widgets/config.rs (lines 106-120): debug log
level, the listed key bindings, and an empty command list. The key codes are
the virtual key codes produced by util::get_key_code (util.rs is absent from
the sources; the concrete codes are irrelevant to every claim). -/
def Config.default : Config :=
  { settings :=
    { log_level := { level := LevelFilter.Debug }
    , display := { key_code := 48, modifiers := 0, previous_pressed := false }
    , down := { key_code := 40, modifiers := 0, previous_pressed := false }
    , up := { key_code := 38, modifiers := 0, previous_pressed := false }
    , left := { key_code := 37, modifiers := 0, previous_pressed := false }
    , right := { key_code := 39, modifiers := 0, previous_pressed := false } }
  , commands := [] }

/-- A bound widget. Config::make_commands only ever constructs Flag widgets
(Flag::new of the selected bitflag chain and the hotkey). -/
inductive Command where
  | flag (bitflag : Bitflag) (hotkey : KeyState)

/-- Config::make_commands from widgets/config.rs (lines 89-103): filter_map
over the command entries, producing a widget only for Flag entries and
dropping every other command kind. -/
def Config.make_commands (self : Config) (chains : PointerChains) : List Command :=
  self.commands.filterMap (fun cmd =>
    match cmd with
    | CfgCommand.Flag flag hotkey => some (Command.flag (flag.getter chains) hotkey)
    | _ => none)

/-- The config fallback in PracticeTool::new (practice_tool.rs lines 66-69):
a successful load keeps the config with no error; a failed load substitutes
Config::default and keeps the cause, which is then logged. -/
def loadConfigOrDefault (r : Except String Config) : Config × Option String :=
  match r with
  | Except.ok config => (config, none)
  | Except.error e => (Config.default, some e)

/-- UiState from practice_tool.rs (lines 30-34). -/
inductive UiState where
  | MenuOpen
  | Closed
  | Hidden
deriving DecidableEq

/-- The per-frame UI state transition in PracticeTool::render
(practice_tool.rs lines 377-390): gated on the framework not wanting keyboard
capture and on one of the two global hotkeys being pressed; the match arms are
tried in source order. -/
def uiTransition (ui_state : UiState) (display hide want_capture_keyboard : Bool) : UiState :=
  if !want_capture_keyboard && (display || hide) then
    match ui_state, hide with
    | UiState.Hidden, _ => UiState.Closed
    | _, true => UiState.Hidden
    | UiState.MenuOpen, _ => UiState.Closed
    | UiState.Closed, _ => UiState.MenuOpen
  else ui_state

/-- Modelled from the spec: the Widget implementations live in the external
practice_tool_core crate and are absent from the sources. Per the spec, a
widget's keyboard-driven hotkey effect fires on a press, and keyboard-driven
hotkeys are suppressed whenever the embedding UI framework reports that it
wants keyboard focus. -/
def widgetInteract (want_capture_keyboard hotkey_pressed : Bool) : Bool :=
  !want_capture_keyboard && hotkey_pressed

/-- The keyboard-relevant inputs of one frame of PracticeTool::render:
whether the display and hide hotkeys are pressed, whether the framework wants
keyboard capture, and which widget hotkeys are pressed. -/
structure FrameInput where
  display : Bool
  hide : Bool
  want_capture_keyboard : Bool
  widget_hotkeys : List Bool

/-- One frame of PracticeTool::render restricted to its keyboard-driven
effects: the UI state transition, and the per-widget hotkey effects (interact
is dispatched to every widget in every state). -/
def frameStep (ui_state : UiState) (input : FrameInput) : UiState × List Bool :=
  (uiTransition ui_state input.display input.hide input.want_capture_keyboard,
   input.widget_hotkeys.map (widgetInteract input.want_capture_keyboard))

/-- A widget dispatch event of one frame: interact, full render, or compact
render of the widget at a given index. -/
inductive WidgetEvent where
  | interact (idx : Nat)
  | render (idx : Nat)
  | render_closed (idx : Nat)
deriving DecidableEq

/-- The ordered widget dispatch trace of one frame, per UI state, from
practice_tool.rs: render_visible (lines 179-185) dispatches interact to all
widgets then render to all widgets; render_closed (lines 291-297) dispatches
render_closed to all widgets then interact to all widgets; render_hidden
(lines 305-309) dispatches only interact. -/
def dispatchEvents (ui_state : UiState) (n : Nat) : List WidgetEvent :=
  match ui_state with
  | UiState.MenuOpen =>
    (List.range n).map WidgetEvent.interact ++ (List.range n).map WidgetEvent.render
  | UiState.Closed =>
    (List.range n).map WidgetEvent.render_closed ++ (List.range n).map WidgetEvent.interact
  | UiState.Hidden =>
    (List.range n).map WidgetEvent.interact

/-- The per-frame log maintenance in PracticeTool::render (practice_tool.rs
lines 409-413): drain the channel, stamping every received message with the
current instant, then retain only entries strictly younger than five seconds.
Time is in milliseconds. -/
def updateLog (log : List (Nat × String)) (incoming : List String) (now : Nat) :
    List (Nat × String) :=
  (log ++ incoming.map (fun l => (now, l))).filter (fun e => decide (now - e.1 < 5000))

/-- The in-game-time clock fields displayed by PracticeTool::render_closed
(practice_tool.rs lines 279-289). The millis field holds centiseconds, as in
the source. -/
structure IgtClock where
  hours : Nat
  minutes : Nat
  seconds : Nat
  millis : Nat

/-- The clock decomposition of an in-game-time reading in milliseconds, from
practice_tool.rs lines 280-284. -/
def igtDisplay (igt : Nat) : IgtClock :=
  let millis := (igt % 1000) / 10
  let total_seconds := igt / 1000
  let seconds := total_seconds % 60
  let minutes := total_seconds / 60 % 60
  let hours := total_seconds / 3600
  { hours := hours, minutes := minutes, seconds := seconds, millis := millis }

/-- Concrete hotkey used by the concrete test configurations below. -/
def hotkey_p : KeyState := { key_code := 80, modifiers := 0, previous_pressed := false }

/-- A concrete pointer chain table with distinct cells. -/
def chains0 : PointerChains :=
  { all_no_damage := ⟨0⟩, inf_stamina := ⟨1⟩, inf_focus := ⟨2⟩, inf_consumables := ⟨3⟩
  , deathcam := ⟨4⟩, no_death := ⟨5⟩, one_shot := ⟨6⟩, evt_draw := ⟨7⟩
  , evt_disable := ⟨8⟩, ai_disable := ⟨9⟩, rend_chr := ⟨10⟩, rend_obj := ⟨11⟩
  , rend_map := ⟨12⟩, rend_mesh_hi := ⟨13⟩, rend_mesh_lo := ⟨14⟩, all_draw_hit := ⟨15⟩
  , ik_foot_ray := ⟨16⟩, debug_sphere_1 := ⟨17⟩, debug_sphere_2 := ⟨18⟩, gravity := ⟨19⟩ }

/-- A structured configuration holding one flag entry with the unknown name
bogus_flag followed by one valid flag entry. -/
def rawBogus : RawConfig :=
  { settings := Config.default.settings
  , commands := [RawCommand.flag "bogus_flag" hotkey_p, RawCommand.flag "inf_stamina" hotkey_p] }

/-- A parsed configuration holding one flag entry and one souls entry. -/
def cfgMixed : Config :=
  { settings := Config.default.settings
  , commands :=
    [ CfgCommand.Flag { label := "Gravity", getter := fun c => c.gravity } hotkey_p
    , CfgCommand.Souls 10000 hotkey_p ] }

namespace OldTool

/-- PracticeToolState from src/lib.rs (lines 35-38). The BaseAddresses table
produced by version detection is opaque here (a version token). -/
inductive PracticeToolState where
  | Uninit
  | Initialized (base_addresses : Nat)
deriving DecidableEq

/-- DarkSoulsIIIPracticeTool from src/lib.rs (lines 40-47), generic over the
command type since the commands module is absent from the sources. -/
structure Tool (Cmd : Type) where
  commands : List Cmd
  current_row : Nat
  capturing : Bool
  state : PracticeToolState

/-- The tool as built by DarkSoulsIIIPracticeTool::new (src/lib.rs lines
101-108): no commands, row zero, capturing, uninitialized. -/
def Tool.new {Cmd : Type} : Tool Cmd :=
  { commands := [], current_row := 0, capturing := true, state := PracticeToolState.Uninit }

/-- usize subtraction with 64-bit release-mode wraparound semantics. -/
def usizeSub (a b : Nat) : Nat :=
  (a + (2 ^ 64 - b % 2 ^ 64)) % 2 ^ 64

/-- usize addition with 64-bit release-mode wraparound semantics. -/
def usizeAdd (a b : Nat) : Nat :=
  (a + b) % 2 ^ 64

/-- The next/prev row-key handling in render_inner (src/lib.rs lines
285-292): next clamps with min of the command count minus one (usize
subtraction, which wraps around on an empty list) and the incremented row;
prev uses saturating subtraction (Nat subtraction). -/
def updateRow (commands_len current_row : Nat) (next_released prev_released : Bool) : Nat :=
  if next_released then
    Nat.min (usizeSub commands_len 1) (usizeAdd current_row 1)
  else if prev_released then
    current_row - 1
  else
    current_row

/-- The key-release inputs of one frame of render_inner. -/
structure FrameKeys where
  display_released : Bool
  interact_released : Bool
  next_released : Bool
  prev_released : Bool

/-- The state effects of render_inner (src/lib.rs lines 136-299): toggle
capturing on the display key; commands receive interact (game-side effects,
outside the tool state); when not capturing nothing else happens; otherwise
the row keys update current_row. -/
def render_inner {Cmd : Type} (keys : FrameKeys) (t : Tool Cmd) : Tool Cmd :=
  let t1 := if keys.display_released then { t with capturing := !t.capturing } else t
  if !t1.capturing then t1
  else
    { t1 with
      current_row := updateRow t1.commands.length t1.current_row keys.next_released
        keys.prev_released }

/-- DarkSoulsIIIPracticeTool::initialize (src/lib.rs lines 111-134).
Version detection (BaseAddresses::detect_version), the per-version chain
table construction (make_chains) and the per-entry command binding
(try_to_command) live in modules absent from the sources and are passed as
parameters. A failed detection panics (modelled as an error result); a
matched version binds the commands and moves to Initialized; reentry from an
initialized state is the unreachable branch. -/
def initializeTool {Chains CfgCmd Cmd : Type}
    (detect_version : Option Nat) (make_chains : Nat → Option Chains)
    (try_to_command : CfgCmd → Chains → Option Cmd)
    (config_command : List CfgCmd) (t : Tool Cmd) : Except String (Tool Cmd) :=
  match t.state with
  | PracticeToolState.Uninit =>
    match detect_version with
    | some v =>
      let commands :=
        match make_chains v with
        | some pointer_chains =>
          config_command.filterMap (fun cmd => try_to_command cmd pointer_chains)
        | none => t.commands
      Except.ok { t with commands := commands, state := PracticeToolState.Initialized v }
    | none => Except.error "Could not detect version!"
  | PracticeToolState.Initialized _ => Except.error "entered unreachable code"

/-- RenderLoop::render for the old tool (src/lib.rs lines 303-310): an
uninitialized frame runs initialization (and only such a frame runs version
detection, reported by the boolean); an initialized frame runs render_inner.
-/
def render {Chains CfgCmd Cmd : Type}
    (detect_version : Option Nat) (make_chains : Nat → Option Chains)
    (try_to_command : CfgCmd → Chains → Option Cmd) (config_command : List CfgCmd)
    (keys : FrameKeys) (t : Tool Cmd) : Except String (Tool Cmd × Bool) :=
  match t.state with
  | PracticeToolState.Uninit =>
    (initializeTool detect_version make_chains try_to_command config_command t).map
      (fun t2 => (t2, true))
  | PracticeToolState.Initialized _ => Except.ok (render_inner keys t, false)

end OldTool

/-!
Theorems settling the claims.
-/

/-- Claim C1: the per-frame UI state transition satisfies: from Closed,
pressing the display hotkey yields MenuOpen; from MenuOpen, pressing the
display hotkey yields Closed; from any non-hidden state, pressing the hide
hotkey yields Hidden; and from Hidden, pressing either the display or the
hide hotkey yields Closed, never directly MenuOpen. -/
theorem c1_ui_state_transitions :
    uiTransition UiState.Closed true false false = UiState.MenuOpen ∧
    uiTransition UiState.MenuOpen true false false = UiState.Closed ∧
    uiTransition UiState.Closed false true false = UiState.Hidden ∧
    uiTransition UiState.MenuOpen false true false = UiState.Hidden ∧
    uiTransition UiState.Hidden true false false = UiState.Closed ∧
    uiTransition UiState.Hidden false true false = UiState.Closed := by
  decide

/-- Claim C4: when the configuration cannot be located, read or parsed, the
session proceeds with the default configuration, whose command list is empty,
and the cause of the failure is kept (it is then logged); the load error is
never fatal, since the fallback is total. -/
theorem c4_config_load_fallback (e : String) :
    loadConfigOrDefault (Except.error e) = (Config.default, some e) ∧
    Config.default.commands = [] := ⟨rfl, rfl⟩

/-- Claim C6: in a frame where the embedding UI framework wants keyboard
capture, no keyboard-driven hotkey fires: the UI state transition does not
fire and no widget hotkey effect fires. -/
theorem c6_keyboard_capture_suppression (ui_state : UiState) (display hide : Bool)
    (hotkeys : List Bool) :
    frameStep ui_state
        { display := display, hide := hide, want_capture_keyboard := true,
          widget_hotkeys := hotkeys } =
      (ui_state, hotkeys.map (fun _ => false)) := by
  unfold frameStep uiTransition widgetInteract
  simp

/-- Claim C8: each frame the drained messages are stamped with the current
instant and appended, and the retained log is exactly the entries strictly
younger than five seconds: the old entries are filtered by strict age and
every newly stamped entry is retained. -/
theorem c8_log_retention (log : List (Nat × String)) (incoming : List String) (now : Nat) :
    updateLog log incoming now =
      log.filter (fun e => decide (now - e.1 < 5000)) ++ incoming.map (fun l => (now, l)) ∧
    (updateLog log incoming now).all (fun e => decide (now - e.1 < 5000)) = true := by
  constructor
  · unfold updateLog
    rw [List.filter_append]
    congr 1
    rw [List.filter_eq_self]
    intro a ha
    obtain ⟨l, _, rfl⟩ := List.mem_map.mp ha
    simp
  · rw [List.all_eq_true]
    intro e he
    exact (List.mem_filter.mp he).2

/-- Claim C10: for every in-game-time reading igt in milliseconds, the
displayed clock components satisfy minutes less than 60, seconds less than
60, centiseconds less than 100, and recomposing them yields igt divided by
ten under integer division. -/
theorem c10_igt_clock (igt : Nat) :
    (igtDisplay igt).minutes < 60 ∧
    (igtDisplay igt).seconds < 60 ∧
    (igtDisplay igt).millis < 100 ∧
    (((igtDisplay igt).hours * 60 + (igtDisplay igt).minutes) * 60 +
        (igtDisplay igt).seconds) * 100 + (igtDisplay igt).millis = igt / 10 := by
  unfold igtDisplay
  refine ⟨?_, ?_, ?_, ?_⟩ <;> simp only [] <;> omega

/-- Helper: for a command count between one and the usize range, the wrapping
subtraction in the next-row handler computes the ordinary predecessor. -/
theorem usizeSub_one_eq (len : Nat) (hlen : 0 < len) (hsize : len ≤ 2 ^ 64) :
    OldTool.usizeSub len 1 = len - 1 := by
  unfold OldTool.usizeSub
  omega

/-- Claim C9: for a non-empty command list, the next/prev row-key handling in
render_inner keeps current_row within the valid index range: next clamps with
the min against the last index and prev saturates at zero. The non-emptiness
hypothesis matters because the usize subtraction in the next handler wraps
around when the command list is empty. -/
theorem c9_row_bounds (len row : Nat) (next_released prev_released : Bool)
    (hlen : 0 < len) (hsize : len ≤ 2 ^ 64) (hrow : row ≤ len - 1) :
    OldTool.updateRow len row next_released prev_released ≤ len - 1 := by
  unfold OldTool.updateRow
  rw [usizeSub_one_eq len hlen hsize]
  unfold OldTool.usizeAdd
  split
  · exact le_trans (Nat.min_le_left _ _) (le_refl _)
  · split
    · omega
    · exact hrow

/-- Witness for claim C9 at a concrete input: two commands, row zero, next
pressed. -/
theorem c9_row_bounds_witness :
    OldTool.updateRow 2 0 true false ≤ 2 - 1 :=
  c9_row_bounds 2 0 true false (by decide) (by decide) (by decide)

/-- Helper: render_inner never touches the initialization state of the tool.
-/
theorem render_inner_state {Cmd : Type} (keys : OldTool.FrameKeys) (t : OldTool.Tool Cmd) :
    (OldTool.render_inner keys t).state = t.state := by
  unfold OldTool.render_inner
  split <;> dsimp only [] <;> split <;> rfl

/-- Claim C5: version detection runs exactly once and before any widget
exists; a failed detection is a hard abort of initialization (no widget is
constructed, no degraded mode); a matched version moves the state to
Initialized and detection is never re-run. Formally: the freshly built tool
has no commands and is uninitialized; a frame on the fresh tool with no
detected version aborts with the panic message; a frame on the fresh tool
with a detected version runs detection (boolean true) and ends Initialized;
a frame on any initialized tool never runs detection (boolean false) and
preserves the initialized state. -/
theorem c5_version_detection {Chains CfgCmd Cmd : Type}
    (make_chains : Nat → Option Chains) (try_to_command : CfgCmd → Chains → Option Cmd)
    (config_command : List CfgCmd) (keys : OldTool.FrameKeys) (v : Nat)
    (detect_version : Option Nat) (t : OldTool.Tool Cmd)
    (ht : t.state = OldTool.PracticeToolState.Initialized v) :
    ((OldTool.Tool.new : OldTool.Tool Cmd).commands = [] ∧
      (OldTool.Tool.new : OldTool.Tool Cmd).state = OldTool.PracticeToolState.Uninit) ∧
    OldTool.render none make_chains try_to_command config_command keys
        (OldTool.Tool.new : OldTool.Tool Cmd) =
      Except.error "Could not detect version!" ∧
    (∃ t2, OldTool.render (some v) make_chains try_to_command config_command keys
        (OldTool.Tool.new : OldTool.Tool Cmd) = Except.ok (t2, true) ∧
      t2.state = OldTool.PracticeToolState.Initialized v) ∧
    (OldTool.render detect_version make_chains try_to_command config_command keys t =
        Except.ok (OldTool.render_inner keys t, false) ∧
      (OldTool.render_inner keys t).state = OldTool.PracticeToolState.Initialized v) := by
  refine ⟨⟨rfl, rfl⟩, rfl, ?_, ?_⟩
  · refine ⟨_, rfl, rfl⟩
  · constructor
    · unfold OldTool.render
      rw [ht]
    · rw [render_inner_state, ht]

/-- Witness for claim C5 at concrete inputs: the external detection and
binding functions are instantiated over Nat tokens, and the initialized tool
hypothesis is discharged on a concrete initialized tool. -/
theorem c5_version_detection_witness :
    OldTool.render (none : Option Nat) (fun _ : Nat => (none : Option Nat))
        (fun (_ : Nat) (_ : Nat) => (none : Option Nat)) ([] : List Nat)
        { display_released := false, interact_released := false, next_released := false,
          prev_released := false }
        (OldTool.Tool.new : OldTool.Tool Nat) =
      Except.error "Could not detect version!" :=
  (c5_version_detection (fun _ : Nat => (none : Option Nat))
    (fun (_ : Nat) (_ : Nat) => (none : Option Nat)) ([] : List Nat)
    { display_released := false, interact_released := false, next_released := false,
      prev_released := false }
    0 none
    { commands := ([] : List Nat), current_row := 0, capturing := true,
      state := OldTool.PracticeToolState.Initialized 0 }
    rfl).2.1

/-- Helper: if some entry of the command vector fails to deserialize, the
whole vector deserialization fails. -/
theorem deserializeCommands_error_of_mem (x : RawCommand) (e : String)
    (hfx : RawCommand.deserialize x = Except.error e) :
    ∀ l : List RawCommand, x ∈ l → ∃ msg, deserializeCommands l = Except.error msg := by
  intro l
  induction l with
  | nil => intro h; cases h
  | cons a l ih =>
    intro h
    cases hda : RawCommand.deserialize a with
    | error e2 => exact ⟨e2, by simp [deserializeCommands, hda]⟩
    | ok c =>
      rcases List.mem_cons.mp h with rfl | hmem
      · rw [hfx] at hda; cases hda
      · rcases ih hmem with ⟨msg, hmsg⟩
        exact ⟨msg, by simp [deserializeCommands, hda, hmsg]⟩

/-- Claim C2 counterexample: a configuration whose command list holds the
unknown flag name bogus_flag followed by the valid flag inf_stamina. The
claim predicts that only the offending entry is dropped, so one widget would
remain; the code rejects the whole configuration, falls back to the default,
and produces no widget at all. -/
theorem c2_counterexample :
    ¬ ((Config.make_commands (loadConfigOrDefault (Config.parse rawBogus)).1 chains0).length
        = 1) := by
  decide

/-- Claim C2 amended: a command list containing a flag entry with an unknown
flag name fails the entire configuration parse at load time (the parse error
wraps the flag error), and the session then proceeds with the default
configuration, whose command list is empty — the remaining valid entries are
not retained. -/
theorem c2_unknown_flag_aborts_parse (st : Settings) (raws : List RawCommand)
    (name : String) (hk : KeyState) (e : String)
    (hbad : FlagSpec.tryFrom name = Except.error e)
    (hmem : RawCommand.flag name hk ∈ raws) :
    (∃ msg, Config.parse { settings := st, commands := raws } = Except.error msg) ∧
    (loadConfigOrDefault (Config.parse { settings := st, commands := raws })).1.commands
      = [] := by
  have hdes : RawCommand.deserialize (RawCommand.flag name hk) = Except.error e := by
    simp [RawCommand.deserialize, hbad, Except.map]
  obtain ⟨msg, hmsg⟩ := deserializeCommands_error_of_mem _ _ hdes raws hmem
  constructor
  · exact ⟨"TOML configuration parse error: " ++ msg, by simp [Config.parse, hmsg]⟩
  · simp [Config.parse, hmsg, loadConfigOrDefault, Config.default]

/-- Witness for the amended claim C2 on the concrete bogus_flag
configuration. -/
theorem c2_unknown_flag_aborts_parse_witness :
    (∃ msg, Config.parse rawBogus = Except.error msg) ∧
    (loadConfigOrDefault (Config.parse rawBogus)).1.commands = [] :=
  c2_unknown_flag_aborts_parse Config.default.settings rawBogus.commands "bogus_flag"
    hotkey_p ("\"bogus_flag\" is not a valid flag specifier") (by rfl) (List.Mem.head _)

/-- Claim C3 counterexample: a command list holding one flag entry and one
souls entry. The claim predicts exactly one widget per CommandSpec of every
kind, hence two widgets; the binder produces only the flag widget. -/
theorem c3_counterexample :
    ¬ ((Config.make_commands cfgMixed chains0).length = cfgMixed.commands.length) := by
  decide

/-- Claim C3 amended: the config binder is an order-preserving homomorphism
on command lists that produces exactly one widget (the flag widget bound
through the chain table) for each flag CommandSpec and no widget for the
other five kinds (savefile_manager, position, speed, souls, quitout). -/
theorem c3_make_commands_flags_only (st : Settings) (chains : PointerChains)
    (c1 c2 : List CfgCommand) (fs : FlagSpec) (hk : KeyState) (vs : List Float)
    (amount : Nat) :
    Config.make_commands { settings := st, commands := c1 ++ c2 } chains =
      Config.make_commands { settings := st, commands := c1 } chains ++
        Config.make_commands { settings := st, commands := c2 } chains ∧
    Config.make_commands { settings := st, commands := [CfgCommand.Flag fs hk] } chains =
      [Command.flag (fs.getter chains) hk] ∧
    Config.make_commands { settings := st, commands := [CfgCommand.SavefileManager hk] }
      chains = [] ∧
    Config.make_commands { settings := st, commands := [CfgCommand.Position hk] } chains
      = [] ∧
    Config.make_commands { settings := st, commands := [CfgCommand.CycleSpeed vs hk] }
      chains = [] ∧
    Config.make_commands { settings := st, commands := [CfgCommand.Souls amount hk] }
      chains = [] ∧
    Config.make_commands { settings := st, commands := [CfgCommand.Quitout hk] } chains
      = [] := by
  refine ⟨?_, rfl, rfl, rfl, rfl, rfl, rfl⟩
  simp [Config.make_commands, List.filterMap_append]

/-- Claim C7 counterexample: in the Closed state with one widget, interact is
not dispatched before render_closed — the compact render of the widget comes
first in the frame trace, then its interact. -/
theorem c7_counterexample :
    ¬ ((dispatchEvents UiState.Closed 1).indexOf (WidgetEvent.interact 0) <
        (dispatchEvents UiState.Closed 1).indexOf (WidgetEvent.render_closed 0)) := by
  decide

/-- Claim C7 amended: every frame, in every UI state, interact is dispatched
to every widget (hotkeys stay live with the panel open, closed or hidden);
in MenuOpen every interact dispatch precedes every render dispatch, while in
Closed every render_closed dispatch precedes every interact dispatch; in
Hidden no widget is drawn (no render and no render_closed dispatch occurs).
-/
theorem c7_dispatch_order (n i j : Nat) (hi : i < n) (hj : j < n) :
    (WidgetEvent.interact i ∈ dispatchEvents UiState.MenuOpen n ∧
      WidgetEvent.interact i ∈ dispatchEvents UiState.Closed n ∧
      WidgetEvent.interact i ∈ dispatchEvents UiState.Hidden n) ∧
    (dispatchEvents UiState.MenuOpen n).indexOf (WidgetEvent.interact i) <
      (dispatchEvents UiState.MenuOpen n).indexOf (WidgetEvent.render j) ∧
    (dispatchEvents UiState.Closed n).indexOf (WidgetEvent.render_closed j) <
      (dispatchEvents UiState.Closed n).indexOf (WidgetEvent.interact i) ∧
    WidgetEvent.render j ∉ dispatchEvents UiState.Hidden n ∧
    WidgetEvent.render_closed j ∉ dispatchEvents UiState.Hidden n := by
  have hmemI : WidgetEvent.interact i ∈ (List.range n).map WidgetEvent.interact :=
    List.mem_map_of_mem _ (List.mem_range.mpr hi)
  have hmemRC : WidgetEvent.render_closed j ∈ (List.range n).map WidgetEvent.render_closed :=
    List.mem_map_of_mem _ (List.mem_range.mpr hj)
  have hnotR : WidgetEvent.render j ∉ (List.range n).map WidgetEvent.interact := by simp
  have hnotI : WidgetEvent.interact i ∉ (List.range n).map WidgetEvent.render_closed := by
    simp
  refine ⟨⟨?_, ?_, ?_⟩, ?_, ?_, ?_, ?_⟩
  · exact List.mem_append_left _ hmemI
  · exact List.mem_append_right _ hmemI
  · exact hmemI
  · show ((List.range n).map WidgetEvent.interact ++
        (List.range n).map WidgetEvent.render).indexOf (WidgetEvent.interact i) <
      ((List.range n).map WidgetEvent.interact ++
        (List.range n).map WidgetEvent.render).indexOf (WidgetEvent.render j)
    rw [List.indexOf_append_of_mem hmemI, List.indexOf_append_of_not_mem hnotR]
    exact Nat.lt_of_lt_of_le (List.indexOf_lt_length.mpr hmemI) (Nat.le_add_right _ _)
  · show ((List.range n).map WidgetEvent.render_closed ++
        (List.range n).map WidgetEvent.interact).indexOf (WidgetEvent.render_closed j) <
      ((List.range n).map WidgetEvent.render_closed ++
        (List.range n).map WidgetEvent.interact).indexOf (WidgetEvent.interact i)
    rw [List.indexOf_append_of_mem hmemRC, List.indexOf_append_of_not_mem hnotI]
    exact Nat.lt_of_lt_of_le (List.indexOf_lt_length.mpr hmemRC) (Nat.le_add_right _ _)
  · simp [dispatchEvents]
  · simp [dispatchEvents]

/-- Witness for the amended claim C7 at one widget: in the Closed state the
compact render of widget zero precedes its interact. -/
theorem c7_dispatch_order_witness :
    (dispatchEvents UiState.Closed 1).indexOf (WidgetEvent.render_closed 0) <
      (dispatchEvents UiState.Closed 1).indexOf (WidgetEvent.interact 0) :=
  (c7_dispatch_order 1 0 0 (by decide) (by decide)).2.2.1
